import Mathlib

/-!
Verification development for the `fire_geoprojector` repository.

The embedding models `src/utils/buffer.py` (`EventBuffer`) shallowly:

* Python/numpy floating-point values are modelled as exact rationals (`ℚ`);
  every concrete scenario checked below is far from any binary64 rounding
  boundary, so the rational and floating-point computations agree there.
* `datetime` values are modelled as UNIX seconds (`ℚ`); `timestamp()` is the
  identity and `(a - b).total_seconds()` is rational subtraction.
* `np.cos(np.radians x)` is an unspecified transcendental; the development is
  parametrised by an arbitrary function `cosr : ℚ → ℚ` standing for
  `cos ∘ radians`.  All scenario facts proved below hold for every `cosr`,
  and `cosRef` is a fixed rational stand-in used for closed statements.
* the numpy tensor of shape `(max_capacity, 12, row_size, row_size)` is
  modelled as a total function `Grid4` of the four indices; the dimensions
  live in the `EventBuffer` fields.  All writes performed by the source are
  bounds-checked before indexing, so no out-of-range indexing needs a model.
* Python's recursion between `add_event` and `handle_ofg_events` is modelled
  with an explicit fuel argument counting the re-centerings still allowed;
  the result `none` marks a computation that would recurse further
  (Python would keep recursing, up to `RecursionError`).
-/

/-- Python's builtin `round` (and `np.round`) on a float: round half to even
(banker's rounding), as an operation on exact rationals, composed with the
exact `int(...)` conversion of the already-integral result. -/
def pyRound (q : ℚ) : ℤ :=
  if q - ⌊q⌋ < 1/2 then ⌊q⌋
  else if 1/2 < q - ⌊q⌋ then ⌊q⌋ + 1
  else if ⌊q⌋ % 2 = 0 then ⌊q⌋ else ⌊q⌋ + 1

/-- The tensor `np.zeros((max_capacity, 12, row_size, row_size))`, modelled as
a total function of (frame, channel, row, col). -/
abbrev Grid4 : Type := ℕ → ℕ → ℕ → ℕ → ℚ

/-- The constant attribute `self.km_per_deg_lat = 111.320`, set at
construction and never reassigned anywhere in the source; modelled as a
constant. -/
def km_per_deg_lat : ℚ := 2783/25

/-- State of `EventBuffer` (src/utils/buffer.py).  The tensor's first two
dimensions (`max_capacity`, the 12 channels) and last two (`row_size`) are
carried by the fields; channel indices beyond 11 never occur in the source. -/
structure EventBuffer where
  lat0 : ℚ
  lon0 : ℚ
  start_time : ℚ
  row_size : ℕ
  cell_size_km : ℚ
  step_minutes : ℤ
  max_capacity : ℕ
  km_per_deg_lon : ℚ
  tensor : Grid4

/-- `EventBuffer.__init__`: stores the ignition point and configuration,
zero-initialises the tensor and derives `km_per_deg_lon` from the origin
latitude.  The constructor body contains no validation code. -/
def initBuffer (cosr : ℚ → ℚ) (lat0 lon0 start_time : ℚ) (row_size : ℕ)
    (cell_size_km : ℚ) (step_minutes : ℤ) (max_capacity : ℕ) : EventBuffer :=
  { lat0 := lat0
    lon0 := lon0
    start_time := start_time
    row_size := row_size
    cell_size_km := cell_size_km
    step_minutes := step_minutes
    max_capacity := max_capacity
    km_per_deg_lon := (2783/25) * cosr lat0
    tensor := fun _ _ _ _ => 0 }

/-- Construction as observed by a Python caller.  The constructor itself has
no checks; the only statement in `__init__` that can raise is
`np.zeros((max_capacity, 12, row_size, row_size))`, which numpy rejects
exactly when a requested dimension is negative.  Zero dimensions and any
`cell_size_km` (or `step_minutes`) are accepted silently. -/
def initBufferChecked (cosr : ℚ → ℚ) (lat0 lon0 start_time : ℚ)
    (row_size : ℤ) (cell_size_km : ℚ) (step_minutes : ℤ) (max_capacity : ℤ) :
    Except String EventBuffer :=
  if row_size < 0 ∨ max_capacity < 0 then
    Except.error "ValueError: negative dimensions are not allowed"
  else
    Except.ok (initBuffer cosr lat0 lon0 start_time row_size.toNat
      cell_size_km step_minutes max_capacity.toNat)

/-- `EventBuffer.coord_to_grid`: project real-world coordinates to a grid
cell.  Translated line by line from the source; outputs may lie outside
`[0, row_size)`, the caller bounds-checks. -/
def coord_to_grid (b : EventBuffer) (lat lon : ℚ) : ℤ × ℤ :=
  let dlat_km := (lat - b.lat0) * km_per_deg_lat
  let dlon_km := (lon - b.lon0) * b.km_per_deg_lon
  let row_offset := pyRound (dlat_km / b.cell_size_km)
  let col_offset := pyRound (dlon_km / b.cell_size_km)
  let center : ℤ := (b.row_size : ℤ) / 2
  (center - row_offset, center + col_offset)

/-- `EventBuffer.get_frame_index`: `int(delta.total_seconds() //
(self.step_minutes * 60))`.  Python float `//` is floor, and `int` of an
already-floored float is exact, so this is the mathematical floor.  It reads
only `start_time` and `step_minutes` and mutates nothing (the model is a pure
function of the state). -/
def get_frame_index (b : EventBuffer) (timestamp : ℚ) : ℤ :=
  ⌊(timestamp - b.start_time) / ((b.step_minutes : ℚ) * 60)⌋

/-- Single-cell update of the tensor, `self.tensor[f, ch, r, c] = v`. -/
def upd (T : Grid4) (f ch r c : ℕ) (v : ℚ) : Grid4 :=
  fun f' ch' r' c' => if f' = f ∧ ch' = ch ∧ r' = r ∧ c' = c then v
    else T f' ch' r' c'

/-- The in-bounds write of `add_event`: fire flag 1 into channel 1 and the
UNIX timestamp into channel 0 at `[frame, ·, row, col]`. -/
def writeEvent (b : EventBuffer) (frame row col : ℕ) (ts_unix : ℚ) :
    EventBuffer :=
  let withFlag := upd b.tensor frame 1 row col 1
  { b with tensor := upd withFlag frame 0 row col ts_unix }

/-- All grid cells `(row, col)` in the row-major order in which
`np.meshgrid(..., indexing="ij")` flattens them (rows outer, columns
inner). -/
def cellList (n : ℕ) : List (ℕ × ℕ) :=
  (List.range n).flatMap fun r => (List.range n).map fun c => (r, c)

/-- Remapping of one old grid cell in `EventBuffer.shift_grid`: back-project
`(row, col)` to latitude/longitude under the old origin and old
`km_per_deg_lon`, then forward-project under the new origin and the freshly
recomputed `km_per_deg_lon`. -/
def remapCell (cosr : ℚ → ℚ) (b : EventBuffer) (new_lat0 new_lon0 : ℚ)
    (rc : ℕ × ℕ) : ℤ × ℤ :=
  let km_per_deg_lon_old := b.km_per_deg_lon
  let km_per_deg_lon_new := (2783/25) * cosr new_lat0
  let center : ℤ := (b.row_size : ℤ) / 2
  let dlat_km := ((center : ℚ) - rc.1) * b.cell_size_km
  let dlon_km := ((rc.2 : ℚ) - center) * b.cell_size_km
  let lat := b.lat0 + dlat_km / km_per_deg_lat
  let lon := b.lon0 + dlon_km / km_per_deg_lon_old
  let dlat_km_new := (lat - new_lat0) * km_per_deg_lat
  let dlon_km_new := (lon - new_lon0) * km_per_deg_lon_new
  (center - pyRound (dlat_km_new / b.cell_size_km),
   center + pyRound (dlon_km_new / b.cell_size_km))

/-- `EventBuffer.shift_grid`: recompute `km_per_deg_lon` for the new origin,
remap every old cell whose image is still in the window into a fresh
zero-initialised tensor (later duplicates of a target cell overwrite earlier
ones, matching numpy's in-order fancy assignment), then update the origin and
swap the tensor. -/
def shift_grid (cosr : ℚ → ℚ) (b : EventBuffer) (new_lat0 new_lon0 : ℚ) :
    EventBuffer :=
  let newT := (cellList b.row_size).foldl
    (fun T rc =>
      let nrc := remapCell cosr b new_lat0 new_lon0 rc
      if 0 ≤ nrc.1 ∧ nrc.1 < (b.row_size : ℤ) ∧ 0 ≤ nrc.2 ∧
          nrc.2 < (b.row_size : ℤ) then
        fun f ch r' c' => if r' = nrc.1.toNat ∧ c' = nrc.2.toNat then
          b.tensor f ch rc.1 rc.2 else T f ch r' c'
      else T)
    (fun _ _ _ _ => 0)
  { b with lat0 := new_lat0
           lon0 := new_lon0
           km_per_deg_lon := (2783/25) * cosr new_lat0
           tensor := newT }

/-- `EventBuffer.add_event`, with the call to `handle_ofg_events` inlined
(the Python pair `add_event` / `handle_ofg_events` is mutually recursive with
no depth bound; `fuel` counts the re-centerings still permitted, and `none`
models a run that would recurse past that allowance). -/
def add_event (cosr : ℚ → ℚ) : ℕ → EventBuffer → ℚ → ℚ → ℚ →
    Option EventBuffer
  | fuel, b, lat, lon, t =>
    let frame_idx := get_frame_index b t
    if ¬ (0 ≤ frame_idx ∧ frame_idx < (b.max_capacity : ℤ)) then some b
    else
      let rc := coord_to_grid b lat lon
      if 0 ≤ rc.1 ∧ rc.1 < (b.row_size : ℤ) ∧ 0 ≤ rc.2 ∧
          rc.2 < (b.row_size : ℤ) then
        some (writeEvent b frame_idx.toNat rc.1.toNat rc.2.toNat t)
      else
        match fuel with
        | 0 => none
        | fuel' + 1 =>
          add_event cosr fuel'
            (shift_grid cosr b ((b.lat0 + lat) / 2) ((b.lon0 + lon) / 2))
            lat lon t

/-- `EventBuffer.handle_ofg_events`: midpoint re-centering followed by a
re-attempted insertion. -/
def handle_ofg_events (cosr : ℚ → ℚ) (fuel : ℕ) (b : EventBuffer)
    (lat lon t : ℚ) : Option EventBuffer :=
  add_event cosr fuel
    (shift_grid cosr b ((b.lat0 + lat) / 2) ((b.lon0 + lon) / 2)) lat lon t

/-- A sequence of `add_event` calls, threading the state; `none` as soon as
one call runs out of fuel. -/
def applyEvents (cosr : ℚ → ℚ) (fuel : ℕ) : EventBuffer →
    List (ℚ × ℚ × ℚ) → Option EventBuffer
  | b, [] => some b
  | b, (lat, lon, t) :: rest =>
    match add_event cosr fuel b lat lon t with
    | none => none
    | some b' => applyEvents cosr fuel b' rest

/-- A fixed rational stand-in for `cos ∘ radians` near latitude 38°
(cos 38.03° ≈ 0.7876); used only to close statements whose truth does not
depend on the value. -/
def cosRef : ℚ → ℚ := fun _ => 787/1000

/-- A Python float argument as it matters to `add_event`: either a finite
value (modelled exactly as a rational) or NaN.  IEEE arithmetic propagates
NaN through `-`, `*` and `/`. -/
inductive PFloat where
  | nan : PFloat
  | fin : ℚ → PFloat

/-- IEEE subtraction on the modelled floats (NaN absorbs). -/
def pSub : PFloat → PFloat → PFloat
  | PFloat.fin a, PFloat.fin b => PFloat.fin (a - b)
  | _, _ => PFloat.nan

/-- IEEE multiplication on the modelled floats (NaN absorbs). -/
def pMul : PFloat → PFloat → PFloat
  | PFloat.fin a, PFloat.fin b => PFloat.fin (a * b)
  | _, _ => PFloat.nan

/-- IEEE division on the modelled floats (NaN absorbs; division of a finite
value by a nonzero finite value is exact, the zero-divisor case is outside
the scope of the NaN-propagation model). -/
def pDiv : PFloat → PFloat → PFloat
  | PFloat.fin a, PFloat.fin b => PFloat.fin (a / b)
  | _, _ => PFloat.nan

/-- Python's `int(round(x))` on a float: on NaN, `round` raises
`ValueError: cannot convert float NaN to integer`. -/
def pIntRound : PFloat → Except String ℤ
  | PFloat.fin q => Except.ok (pyRound q)
  | PFloat.nan =>
    Except.error "ValueError: cannot convert float NaN to integer"

/-- `EventBuffer.coord_to_grid` with NaN-aware inputs: the two
`int(round(...))` conversions are the only statements of the method that can
raise. -/
def coord_to_gridF (b : EventBuffer) (lat lon : PFloat) :
    Except String (ℤ × ℤ) := do
  let dlat_km := pMul (pSub lat (PFloat.fin b.lat0)) (PFloat.fin km_per_deg_lat)
  let dlon_km := pMul (pSub lon (PFloat.fin b.lon0))
    (PFloat.fin b.km_per_deg_lon)
  let row_offset ← pIntRound (pDiv dlat_km (PFloat.fin b.cell_size_km))
  let col_offset ← pIntRound (pDiv dlon_km (PFloat.fin b.cell_size_km))
  let center : ℤ := (b.row_size : ℤ) / 2
  Except.ok (center - row_offset, center + col_offset)

/-- `EventBuffer.add_event` with NaN-aware coordinate arguments.
`Except.error` models the Python exception escaping `add_event`;
`Except.ok none` models fuel exhaustion of the re-centering recursion.  The
case split on the coordinate arguments mirrors `coord_to_gridF` exactly:
with both coordinates finite the projection returns
`Except.ok (coord_to_grid b la lo)` (theorem `coord_to_gridF_fin` below, by
definitional unfolding), and with either coordinate NaN the NaN propagates
into one of the two `int(round(...))` conversions, which raises (theorems
`coord_to_gridF_nan_lat` and `coord_to_gridF_nan_lon` below). -/
def add_eventF (cosr : ℚ → ℚ) : ℕ → EventBuffer → PFloat → PFloat → ℚ →
    Except String (Option EventBuffer)
  | fuel, b, lat, lon, t =>
    let frame_idx := get_frame_index b t
    if ¬ (0 ≤ frame_idx ∧ frame_idx < (b.max_capacity : ℤ)) then
      Except.ok (some b)
    else
      match lat, lon with
      | PFloat.fin la, PFloat.fin lo =>
        let rc := coord_to_grid b la lo
        if 0 ≤ rc.1 ∧ rc.1 < (b.row_size : ℤ) ∧ 0 ≤ rc.2 ∧
            rc.2 < (b.row_size : ℤ) then
          Except.ok (some (writeEvent b frame_idx.toNat rc.1.toNat rc.2.toNat
            t))
        else
          match fuel with
          | 0 => Except.ok none
          | fuel' + 1 =>
            add_eventF cosr fuel'
              (shift_grid cosr b ((b.lat0 + la) / 2) ((b.lon0 + lo) / 2))
              (PFloat.fin la) (PFloat.fin lo) t
      | _, _ =>
        Except.error "ValueError: cannot convert float NaN to integer"

/-- Reference scenario of the specification: buffer constructed at ignition
point `(38.01, 23.96)` with `start_time = 0` (UNIX seconds), `row_size = 10`,
`cell_size_km = 0.2`, `step_minutes = 1`, `max_capacity = 240`. -/
def sb0 (cosr : ℚ → ℚ) : EventBuffer :=
  initBuffer cosr (3801/100) (599/25) 0 10 (1/5) 1 240

/-- Scenario state after the first insertion, at the origin itself: cell
`(5, 5)` of frame 0 written. -/
def sb1 (cosr : ℚ → ℚ) : EventBuffer := writeEvent (sb0 cosr) 0 5 5 0

/-- Scenario state after the first re-centering triggered by the event at
`(38.05, 23.96)`: origin moved to the midpoint `(38.03, 23.96)`. -/
def sb2 (cosr : ℚ → ℚ) : EventBuffer :=
  shift_grid cosr (sb1 cosr) (3803/100) (599/25)

/-- Scenario state after the second re-centering: origin `(38.04, 23.96)`. -/
def sb3 (cosr : ℚ → ℚ) : EventBuffer :=
  shift_grid cosr (sb2 cosr) (951/25) (599/25)

/-- Scenario state after the third re-centering: origin `(38.045, 23.96)`. -/
def sb4 (cosr : ℚ → ℚ) : EventBuffer :=
  shift_grid cosr (sb3 cosr) (7609/200) (599/25)

/-- A tensor whose fire-flag channel (channel 1) holds only zeros and
ones. -/
def FireFlagOkG (T : Grid4) : Prop :=
  ∀ f r c : ℕ, T f 1 r c = 0 ∨ T f 1 r c = 1

/-- The buffer's fire-flag channel holds only zeros and ones. -/
def FireFlagOk (b : EventBuffer) : Prop := FireFlagOkG b.tensor

/-- `pyRound` at a rational strictly below the half-way point. -/
theorem pyRound_of_lt_half (n : ℤ) (q : ℚ) (h1 : (n : ℚ) ≤ q)
    (h2 : q < n + 1/2) : pyRound q = n := by
  have hfl : ⌊q⌋ = n := Int.floor_eq_iff.mpr ⟨h1, by linarith⟩
  unfold pyRound
  rw [hfl, if_pos (show q - (n : ℚ) < 1/2 by linarith)]

/-- `pyRound` at a rational strictly above the half-way point. -/
theorem pyRound_of_half_lt (n : ℤ) (q : ℚ) (h1 : (n : ℚ) + 1/2 < q)
    (h2 : q < n + 1) : pyRound q = n + 1 := by
  have hfl : ⌊q⌋ = n :=
    Int.floor_eq_iff.mpr ⟨by linarith, by linarith⟩
  unfold pyRound
  rw [hfl, if_neg (show ¬ q - (n : ℚ) < 1/2 by linarith),
    if_pos (show (1 : ℚ)/2 < q - (n : ℚ) by linarith)]

/-- Rounding zero gives zero. -/
theorem pyRound_zero : pyRound 0 = 0 := by
  exact pyRound_of_lt_half 0 0 (by norm_num) (by norm_num)

/-- Banker's rounding is weakly monotone. -/
theorem pyRound_mono {q q' : ℚ} (h : q ≤ q') : pyRound q ≤ pyRound q' := by
  have hf : ⌊q⌋ ≤ ⌊q'⌋ := Int.floor_le_floor h
  by_cases hlt : ⌊q⌋ < ⌊q'⌋
  · unfold pyRound
    split_ifs <;> omega
  · have he : ⌊q⌋ = ⌊q'⌋ := le_antisymm hf (not_lt.mp hlt)
    have hr : q - (⌊q⌋ : ℚ) ≤ q' - (⌊q'⌋ : ℚ) := by
      rw [he]; linarith
    unfold pyRound
    rw [he]
    split_ifs <;> first | omega | linarith

/-- Unfolding equation: the finite-coordinate projection agrees with the
rational one. -/
theorem coord_to_gridF_fin (b : EventBuffer) (la lo : ℚ) :
    coord_to_gridF b (PFloat.fin la) (PFloat.fin lo) =
      Except.ok (coord_to_grid b la lo) := rfl

/-- A NaN latitude propagates into the first `int(round(...))`, which
raises. -/
theorem coord_to_gridF_nan_lat (b : EventBuffer) (lon : PFloat) :
    coord_to_gridF b PFloat.nan lon =
      Except.error "ValueError: cannot convert float NaN to integer" := rfl

/-- A NaN longitude propagates into the second `int(round(...))`, which
raises. -/
theorem coord_to_gridF_nan_lon (b : EventBuffer) (la : ℚ) :
    coord_to_gridF b (PFloat.fin la) PFloat.nan =
      Except.error "ValueError: cannot convert float NaN to integer" := rfl

/-- Unfolding equation for `add_event` in the out-of-frame branch. -/
theorem add_event_out_of_frame (cosr : ℚ → ℚ) (fuel : ℕ) (b : EventBuffer)
    (lat lon t : ℚ)
    (h : ¬ (0 ≤ get_frame_index b t ∧
      get_frame_index b t < (b.max_capacity : ℤ))) :
    add_event cosr fuel b lat lon t = some b := by
  cases fuel <;> simp [add_event, h]

/-- Unfolding equation for `add_event` in the in-bounds branch. -/
theorem add_event_in_bounds (cosr : ℚ → ℚ) (fuel : ℕ) (b : EventBuffer)
    (lat lon t : ℚ)
    (hf : 0 ≤ get_frame_index b t ∧
      get_frame_index b t < (b.max_capacity : ℤ))
    (hb : 0 ≤ (coord_to_grid b lat lon).1 ∧
      (coord_to_grid b lat lon).1 < (b.row_size : ℤ) ∧
      0 ≤ (coord_to_grid b lat lon).2 ∧
      (coord_to_grid b lat lon).2 < (b.row_size : ℤ)) :
    add_event cosr fuel b lat lon t =
      some (writeEvent b (get_frame_index b t).toNat
        (coord_to_grid b lat lon).1.toNat (coord_to_grid b lat lon).2.toNat
        t) := by
  cases fuel <;> simp [add_event, hf, hb]

/-- Unfolding equation for `add_event` in the out-of-grid branch with fuel
left: the insertion re-centers to the midpoint and retries. -/
theorem add_event_ofg_succ (cosr : ℚ → ℚ) (fuel : ℕ) (b : EventBuffer)
    (lat lon t : ℚ)
    (hf : 0 ≤ get_frame_index b t ∧
      get_frame_index b t < (b.max_capacity : ℤ))
    (hb : ¬ (0 ≤ (coord_to_grid b lat lon).1 ∧
      (coord_to_grid b lat lon).1 < (b.row_size : ℤ) ∧
      0 ≤ (coord_to_grid b lat lon).2 ∧
      (coord_to_grid b lat lon).2 < (b.row_size : ℤ))) :
    add_event cosr (fuel + 1) b lat lon t =
      add_event cosr fuel
        (shift_grid cosr b ((b.lat0 + lat) / 2) ((b.lon0 + lon) / 2))
        lat lon t := by
  simp [add_event, hf, hb]

@[simp] theorem writeEvent_lat0 (b : EventBuffer) (f r c : ℕ) (t : ℚ) :
    (writeEvent b f r c t).lat0 = b.lat0 := rfl

@[simp] theorem writeEvent_lon0 (b : EventBuffer) (f r c : ℕ) (t : ℚ) :
    (writeEvent b f r c t).lon0 = b.lon0 := rfl

@[simp] theorem writeEvent_start_time (b : EventBuffer) (f r c : ℕ) (t : ℚ) :
    (writeEvent b f r c t).start_time = b.start_time := rfl

@[simp] theorem writeEvent_row_size (b : EventBuffer) (f r c : ℕ) (t : ℚ) :
    (writeEvent b f r c t).row_size = b.row_size := rfl

@[simp] theorem writeEvent_cell_size_km (b : EventBuffer) (f r c : ℕ)
    (t : ℚ) : (writeEvent b f r c t).cell_size_km = b.cell_size_km := rfl

@[simp] theorem writeEvent_step_minutes (b : EventBuffer) (f r c : ℕ)
    (t : ℚ) : (writeEvent b f r c t).step_minutes = b.step_minutes := rfl

@[simp] theorem writeEvent_max_capacity (b : EventBuffer) (f r c : ℕ)
    (t : ℚ) : (writeEvent b f r c t).max_capacity = b.max_capacity := rfl

@[simp] theorem writeEvent_km_per_deg_lon (b : EventBuffer) (f r c : ℕ)
    (t : ℚ) : (writeEvent b f r c t).km_per_deg_lon = b.km_per_deg_lon := rfl

@[simp] theorem shift_grid_lat0 (cosr : ℚ → ℚ) (b : EventBuffer)
    (nl no : ℚ) : (shift_grid cosr b nl no).lat0 = nl := rfl

@[simp] theorem shift_grid_lon0 (cosr : ℚ → ℚ) (b : EventBuffer)
    (nl no : ℚ) : (shift_grid cosr b nl no).lon0 = no := rfl

@[simp] theorem shift_grid_start_time (cosr : ℚ → ℚ) (b : EventBuffer)
    (nl no : ℚ) : (shift_grid cosr b nl no).start_time = b.start_time := rfl

@[simp] theorem shift_grid_row_size (cosr : ℚ → ℚ) (b : EventBuffer)
    (nl no : ℚ) : (shift_grid cosr b nl no).row_size = b.row_size := rfl

@[simp] theorem shift_grid_cell_size_km (cosr : ℚ → ℚ) (b : EventBuffer)
    (nl no : ℚ) :
    (shift_grid cosr b nl no).cell_size_km = b.cell_size_km := rfl

@[simp] theorem shift_grid_step_minutes (cosr : ℚ → ℚ) (b : EventBuffer)
    (nl no : ℚ) :
    (shift_grid cosr b nl no).step_minutes = b.step_minutes := rfl

@[simp] theorem shift_grid_max_capacity (cosr : ℚ → ℚ) (b : EventBuffer)
    (nl no : ℚ) :
    (shift_grid cosr b nl no).max_capacity = b.max_capacity := rfl

@[simp] theorem shift_grid_km_per_deg_lon (cosr : ℚ → ℚ) (b : EventBuffer)
    (nl no : ℚ) :
    (shift_grid cosr b nl no).km_per_deg_lon = (2783/25) * cosr nl := rfl

/-- Unfolding equation for `add_event` in the out-of-grid branch with no fuel
left. -/
theorem add_event_ofg_zero (cosr : ℚ → ℚ) (b : EventBuffer)
    (lat lon t : ℚ)
    (hf : 0 ≤ get_frame_index b t ∧
      get_frame_index b t < (b.max_capacity : ℤ))
    (hb : ¬ (0 ≤ (coord_to_grid b lat lon).1 ∧
      (coord_to_grid b lat lon).1 < (b.row_size : ℤ) ∧
      0 ≤ (coord_to_grid b lat lon).2 ∧
      (coord_to_grid b lat lon).2 < (b.row_size : ℤ))) :
    add_event cosr 0 b lat lon t = none := by
  simp [add_event, hf, hb]

/-- Frame index of timestamp 0 in a buffer with `start_time = 0` and
`step_minutes = 1`. -/
theorem gfi_scenario (b : EventBuffer) (hs : b.start_time = 0)
    (hm : b.step_minutes = 1) : get_frame_index b 0 = 0 := by
  simp [get_frame_index, hs, hm]

/-- Projection in the reference scenario: with the event's longitude equal to
the origin longitude, the column is the center column 5 and the row depends
only on the latitude offset. -/
theorem coord_scenario (b : EventBuffer) (lat L0 : ℚ) (hlat0 : b.lat0 = L0)
    (h10 : b.row_size = 10) (hcell : b.cell_size_km = 1/5) :
    coord_to_grid b lat b.lon0 =
      (5 - pyRound ((lat - L0) * km_per_deg_lat / (1/5)), 5) := by
  unfold coord_to_grid
  rw [hlat0, h10, hcell]
  norm_num [pyRound_zero]

/-- Projection of the origin event in the scenario start state. -/
theorem coord_sb0 (cosr : ℚ → ℚ) :
    coord_to_grid (sb0 cosr) (3801/100) (599/25) = (5, 5) := by
  have hlon : (sb0 cosr).lon0 = 599/25 := by simp [sb0, initBuffer]
  have h := coord_scenario (sb0 cosr) (3801/100) (3801/100)
    (by simp [sb0, initBuffer]) (by simp [sb0, initBuffer])
    (by simp [sb0, initBuffer])
  rw [hlon] at h
  rw [h]
  have hq : ((3801/100 : ℚ) - 3801/100) * km_per_deg_lat / (1/5) = 0 := by
    norm_num
  rw [hq, pyRound_zero]
  decide

/-- Projection of the event `(38.05, 23.96)` before any re-centering:
row offset `round(22.264) = 22`, far outside the window. -/
theorem coord_sb1 (cosr : ℚ → ℚ) :
    coord_to_grid (sb1 cosr) (761/20) (599/25) = (-17, 5) := by
  have hlon : (sb1 cosr).lon0 = 599/25 := by simp [sb1, sb0, initBuffer]
  have h := coord_scenario (sb1 cosr) (761/20) (3801/100)
    (by simp [sb1, sb0, initBuffer]) (by simp [sb1, sb0, initBuffer])
    (by simp [sb1, sb0, initBuffer])
  rw [hlon] at h
  rw [h]
  have hq : ((761/20 : ℚ) - 3801/100) * km_per_deg_lat / (1/5) = 2783/125 := by
    norm_num [km_per_deg_lat]
  rw [hq, pyRound_of_lt_half 22 _ (by norm_num) (by norm_num)]
  decide

/-- Projection of the same event after the first (midpoint) re-centering:
row offset `round(11.132) = 11`, still outside the window. -/
theorem coord_sb2 (cosr : ℚ → ℚ) :
    coord_to_grid (sb2 cosr) (761/20) (599/25) = (-6, 5) := by
  have hlon : (sb2 cosr).lon0 = 599/25 := by simp [sb2]
  have h := coord_scenario (sb2 cosr) (761/20) (3803/100)
    (by simp [sb2]) (by simp [sb2, sb1, sb0, initBuffer])
    (by simp [sb2, sb1, sb0, initBuffer])
  rw [hlon] at h
  rw [h]
  have hq : ((761/20 : ℚ) - 3803/100) * km_per_deg_lat / (1/5) = 2783/250 := by
    norm_num [km_per_deg_lat]
  rw [hq, pyRound_of_lt_half 11 _ (by norm_num) (by norm_num)]
  decide

/-- Projection after the second re-centering: row offset `round(5.566) = 6`,
still outside the window. -/
theorem coord_sb3 (cosr : ℚ → ℚ) :
    coord_to_grid (sb3 cosr) (761/20) (599/25) = (-1, 5) := by
  have hlon : (sb3 cosr).lon0 = 599/25 := by simp [sb3]
  have h := coord_scenario (sb3 cosr) (761/20) (951/25)
    (by simp [sb3]) (by simp [sb3, sb2, sb1, sb0, initBuffer])
    (by simp [sb3, sb2, sb1, sb0, initBuffer])
  rw [hlon] at h
  rw [h]
  have hq : ((761/20 : ℚ) - 951/25) * km_per_deg_lat / (1/5) = 2783/500 := by
    norm_num [km_per_deg_lat]
  rw [hq, pyRound_of_half_lt 5 _ (by norm_num) (by norm_num)]
  decide

/-- Projection after the third re-centering: row offset `round(2.783) = 3`,
finally inside the window at cell `(2, 5)`. -/
theorem coord_sb4 (cosr : ℚ → ℚ) :
    coord_to_grid (sb4 cosr) (761/20) (599/25) = (2, 5) := by
  have hlon : (sb4 cosr).lon0 = 599/25 := by simp [sb4]
  have h := coord_scenario (sb4 cosr) (761/20) (7609/200)
    (by simp [sb4]) (by simp [sb4, sb3, sb2, sb1, sb0, initBuffer])
    (by simp [sb4, sb3, sb2, sb1, sb0, initBuffer])
  rw [hlon] at h
  rw [h]
  have hq : ((761/20 : ℚ) - 7609/200) * km_per_deg_lat / (1/5) = 2783/1000 := by
    norm_num [km_per_deg_lat]
  rw [hq, pyRound_of_half_lt 2 _ (by norm_num) (by norm_num)]
  decide

/-- First scenario insertion: the event at the origin itself, at
`start_time`, is written to cell `(5, 5)` of frame 0, regardless of fuel. -/
theorem scen_event1 (cosr : ℚ → ℚ) (fuel : ℕ) :
    add_event cosr fuel (sb0 cosr) (3801/100) (599/25) 0 = some (sb1 cosr) := by
  have hgfi : get_frame_index (sb0 cosr) 0 = 0 :=
    gfi_scenario _ (by simp [sb0, initBuffer]) (by simp [sb0, initBuffer])
  have hcap : (sb0 cosr).max_capacity = 240 := by simp [sb0, initBuffer]
  have hrs : (sb0 cosr).row_size = 10 := by simp [sb0, initBuffer]
  have hcg := coord_sb0 cosr
  have hf : 0 ≤ get_frame_index (sb0 cosr) 0 ∧
      get_frame_index (sb0 cosr) 0 < ((sb0 cosr).max_capacity : ℤ) := by
    rw [hgfi, hcap]; decide
  have hb : 0 ≤ (coord_to_grid (sb0 cosr) (3801/100) (599/25)).1 ∧
      (coord_to_grid (sb0 cosr) (3801/100) (599/25)).1 <
        ((sb0 cosr).row_size : ℤ) ∧
      0 ≤ (coord_to_grid (sb0 cosr) (3801/100) (599/25)).2 ∧
      (coord_to_grid (sb0 cosr) (3801/100) (599/25)).2 <
        ((sb0 cosr).row_size : ℤ) := by
    rw [hcg, hrs]; decide
  rw [add_event_in_bounds cosr fuel _ _ _ _ hf hb, hgfi, hcg]
  rfl

/-- Second scenario insertion: the event at `(38.05, 23.96)` is out of the
window; with fuel for three re-centerings it is finally written at cell
`(2, 5)` of the grid centred at `(38.045, 23.96)`. -/
theorem scen_event2 (cosr : ℚ → ℚ) :
    add_event cosr 3 (sb1 cosr) (761/20) (599/25) 0 =
      some (writeEvent (sb4 cosr) 0 2 5 0) := by
  have hf1 : 0 ≤ get_frame_index (sb1 cosr) 0 ∧
      get_frame_index (sb1 cosr) 0 < ((sb1 cosr).max_capacity : ℤ) := by
    rw [gfi_scenario _ (by simp [sb1, sb0, initBuffer])
      (by simp [sb1, sb0, initBuffer]),
      show (sb1 cosr).max_capacity = 240 by simp [sb1, sb0, initBuffer]]
    decide
  have hb1 : ¬ (0 ≤ (coord_to_grid (sb1 cosr) (761/20) (599/25)).1 ∧
      (coord_to_grid (sb1 cosr) (761/20) (599/25)).1 <
        ((sb1 cosr).row_size : ℤ) ∧
      0 ≤ (coord_to_grid (sb1 cosr) (761/20) (599/25)).2 ∧
      (coord_to_grid (sb1 cosr) (761/20) (599/25)).2 <
        ((sb1 cosr).row_size : ℤ)) := by
    rw [coord_sb1, show (sb1 cosr).row_size = 10 by simp [sb1, sb0, initBuffer]]
    decide
  rw [show (3 : ℕ) = 2 + 1 from rfl, add_event_ofg_succ cosr 2 _ _ _ _ hf1 hb1,
    show ((sb1 cosr).lat0 + 761/20) / 2 = 3803/100 by
      rw [show (sb1 cosr).lat0 = 3801/100 by simp [sb1, sb0, initBuffer]]
      norm_num,
    show ((sb1 cosr).lon0 + 599/25) / 2 = 599/25 by
      rw [show (sb1 cosr).lon0 = 599/25 by simp [sb1, sb0, initBuffer]]
      norm_num,
    show shift_grid cosr (sb1 cosr) (3803/100) (599/25) = sb2 cosr from rfl]
  have hf2 : 0 ≤ get_frame_index (sb2 cosr) 0 ∧
      get_frame_index (sb2 cosr) 0 < ((sb2 cosr).max_capacity : ℤ) := by
    rw [gfi_scenario _ (by simp [sb2, sb1, sb0, initBuffer])
      (by simp [sb2, sb1, sb0, initBuffer]),
      show (sb2 cosr).max_capacity = 240 by simp [sb2, sb1, sb0, initBuffer]]
    decide
  have hb2 : ¬ (0 ≤ (coord_to_grid (sb2 cosr) (761/20) (599/25)).1 ∧
      (coord_to_grid (sb2 cosr) (761/20) (599/25)).1 <
        ((sb2 cosr).row_size : ℤ) ∧
      0 ≤ (coord_to_grid (sb2 cosr) (761/20) (599/25)).2 ∧
      (coord_to_grid (sb2 cosr) (761/20) (599/25)).2 <
        ((sb2 cosr).row_size : ℤ)) := by
    rw [coord_sb2,
      show (sb2 cosr).row_size = 10 by simp [sb2, sb1, sb0, initBuffer]]
    decide
  rw [show (2 : ℕ) = 1 + 1 from rfl, add_event_ofg_succ cosr 1 _ _ _ _ hf2 hb2,
    show ((sb2 cosr).lat0 + 761/20) / 2 = 951/25 by
      rw [show (sb2 cosr).lat0 = 3803/100 by simp [sb2]]
      norm_num,
    show ((sb2 cosr).lon0 + 599/25) / 2 = 599/25 by
      rw [show (sb2 cosr).lon0 = 599/25 by simp [sb2]]
      norm_num,
    show shift_grid cosr (sb2 cosr) (951/25) (599/25) = sb3 cosr from rfl]
  have hf3 : 0 ≤ get_frame_index (sb3 cosr) 0 ∧
      get_frame_index (sb3 cosr) 0 < ((sb3 cosr).max_capacity : ℤ) := by
    rw [gfi_scenario _ (by simp [sb3, sb2, sb1, sb0, initBuffer])
      (by simp [sb3, sb2, sb1, sb0, initBuffer]),
      show (sb3 cosr).max_capacity = 240 by
        simp [sb3, sb2, sb1, sb0, initBuffer]]
    decide
  have hb3 : ¬ (0 ≤ (coord_to_grid (sb3 cosr) (761/20) (599/25)).1 ∧
      (coord_to_grid (sb3 cosr) (761/20) (599/25)).1 <
        ((sb3 cosr).row_size : ℤ) ∧
      0 ≤ (coord_to_grid (sb3 cosr) (761/20) (599/25)).2 ∧
      (coord_to_grid (sb3 cosr) (761/20) (599/25)).2 <
        ((sb3 cosr).row_size : ℤ)) := by
    rw [coord_sb3,
      show (sb3 cosr).row_size = 10 by simp [sb3, sb2, sb1, sb0, initBuffer]]
    decide
  rw [show (1 : ℕ) = 0 + 1 from rfl, add_event_ofg_succ cosr 0 _ _ _ _ hf3 hb3,
    show ((sb3 cosr).lat0 + 761/20) / 2 = 7609/200 by
      rw [show (sb3 cosr).lat0 = 951/25 by simp [sb3]]
      norm_num,
    show ((sb3 cosr).lon0 + 599/25) / 2 = 599/25 by
      rw [show (sb3 cosr).lon0 = 599/25 by simp [sb3]]
      norm_num,
    show shift_grid cosr (sb3 cosr) (7609/200) (599/25) = sb4 cosr from rfl]
  have hgfi4 : get_frame_index (sb4 cosr) 0 = 0 :=
    gfi_scenario _ (by simp [sb4, sb3, sb2, sb1, sb0, initBuffer])
      (by simp [sb4, sb3, sb2, sb1, sb0, initBuffer])
  have hf4 : 0 ≤ get_frame_index (sb4 cosr) 0 ∧
      get_frame_index (sb4 cosr) 0 < ((sb4 cosr).max_capacity : ℤ) := by
    rw [hgfi4, show (sb4 cosr).max_capacity = 240 by
      simp [sb4, sb3, sb2, sb1, sb0, initBuffer]]
    decide
  have hb4 : 0 ≤ (coord_to_grid (sb4 cosr) (761/20) (599/25)).1 ∧
      (coord_to_grid (sb4 cosr) (761/20) (599/25)).1 <
        ((sb4 cosr).row_size : ℤ) ∧
      0 ≤ (coord_to_grid (sb4 cosr) (761/20) (599/25)).2 ∧
      (coord_to_grid (sb4 cosr) (761/20) (599/25)).2 <
        ((sb4 cosr).row_size : ℤ) := by
    rw [coord_sb4,
      show (sb4 cosr).row_size = 10 by simp [sb4, sb3, sb2, sb1, sb0, initBuffer]]
    decide
  rw [add_event_in_bounds cosr 0 _ _ _ _ hf4 hb4, hgfi4, coord_sb4]
  rfl

/-- With fuel for only one re-centering, the second scenario insertion does
not complete: after the single midpoint re-centering the event is still out
of the window and the source recurses again instead of dropping it. -/
theorem scen_event2_fuel1 (cosr : ℚ → ℚ) :
    add_event cosr 1 (sb1 cosr) (761/20) (599/25) 0 = none := by
  have hf1 : 0 ≤ get_frame_index (sb1 cosr) 0 ∧
      get_frame_index (sb1 cosr) 0 < ((sb1 cosr).max_capacity : ℤ) := by
    rw [gfi_scenario _ (by simp [sb1, sb0, initBuffer])
      (by simp [sb1, sb0, initBuffer]),
      show (sb1 cosr).max_capacity = 240 by simp [sb1, sb0, initBuffer]]
    decide
  have hb1 : ¬ (0 ≤ (coord_to_grid (sb1 cosr) (761/20) (599/25)).1 ∧
      (coord_to_grid (sb1 cosr) (761/20) (599/25)).1 <
        ((sb1 cosr).row_size : ℤ) ∧
      0 ≤ (coord_to_grid (sb1 cosr) (761/20) (599/25)).2 ∧
      (coord_to_grid (sb1 cosr) (761/20) (599/25)).2 <
        ((sb1 cosr).row_size : ℤ)) := by
    rw [coord_sb1, show (sb1 cosr).row_size = 10 by simp [sb1, sb0, initBuffer]]
    decide
  rw [show (1 : ℕ) = 0 + 1 from rfl, add_event_ofg_succ cosr 0 _ _ _ _ hf1 hb1,
    show ((sb1 cosr).lat0 + 761/20) / 2 = 3803/100 by
      rw [show (sb1 cosr).lat0 = 3801/100 by simp [sb1, sb0, initBuffer]]
      norm_num,
    show ((sb1 cosr).lon0 + 599/25) / 2 = 599/25 by
      rw [show (sb1 cosr).lon0 = 599/25 by simp [sb1, sb0, initBuffer]]
      norm_num,
    show shift_grid cosr (sb1 cosr) (3803/100) (599/25) = sb2 cosr from rfl]
  have hf2 : 0 ≤ get_frame_index (sb2 cosr) 0 ∧
      get_frame_index (sb2 cosr) 0 < ((sb2 cosr).max_capacity : ℤ) := by
    rw [gfi_scenario _ (by simp [sb2, sb1, sb0, initBuffer])
      (by simp [sb2, sb1, sb0, initBuffer]),
      show (sb2 cosr).max_capacity = 240 by simp [sb2, sb1, sb0, initBuffer]]
    decide
  have hb2 : ¬ (0 ≤ (coord_to_grid (sb2 cosr) (761/20) (599/25)).1 ∧
      (coord_to_grid (sb2 cosr) (761/20) (599/25)).1 <
        ((sb2 cosr).row_size : ℤ) ∧
      0 ≤ (coord_to_grid (sb2 cosr) (761/20) (599/25)).2 ∧
      (coord_to_grid (sb2 cosr) (761/20) (599/25)).2 <
        ((sb2 cosr).row_size : ℤ)) := by
    rw [coord_sb2,
      show (sb2 cosr).row_size = 10 by simp [sb2, sb1, sb0, initBuffer]]
    decide
  exact add_event_ofg_zero cosr _ _ _ _ hf2 hb2

/-- C1, counterexample.  In the end-to-end scenario the first re-centering
does move the origin to the midpoint `(38.03, 23.96)`, but under that new
origin the event `(38.05, 23.96)` projects to cell `(-6, 5)`, which is not
inside `[0,10) × [0,10)` as the claim asserts: the single midpoint
re-centering does not bring the event into the window. -/
theorem c1_counterexample :
    coord_to_grid (shift_grid cosRef (sb1 cosRef) ((3801/100 + 761/20) / 2)
      ((599/25 + 599/25) / 2)) (761/20) (599/25) = (-6, 5) ∧
    ¬ (0 ≤ (-6 : ℤ) ∧ (-6 : ℤ) < 10) := by
  constructor
  · rw [show ((3801/100 + 761/20 : ℚ)) / 2 = 3803/100 by norm_num,
      show ((599/25 + 599/25 : ℚ)) / 2 = 599/25 by norm_num]
    exact coord_sb2 cosRef
  · decide

/-- C1, amended.  End-to-end scenario with origin `(38.01, 23.96)`,
`row_size = 10`, `cell_size_km = 0.2`: the event at the origin at
`start_time` is written to cell `(5, 5)` of frame 0; the event at
`(38.05, 23.96)` triggers a re-centering whose first new origin is the
midpoint `(38.03, 23.96)`, but its projected cell there is `(-6, 5)`, still
out of bounds, so the code re-centers twice more (origins `(38.04, 23.96)`
and then `(38.045, 23.96)`); only then does the event project in-bounds, to
cell `(2, 5)`, where it is marked as fire.  All of this holds for every
model of `cos ∘ radians`. -/
theorem c1_scenario_amended (cosr : ℚ → ℚ) :
    add_event cosr 0 (sb0 cosr) (3801/100) (599/25) 0 = some (sb1 cosr) ∧
    (sb1 cosr).tensor 0 1 5 5 = 1 ∧
    ((sb1 cosr).lat0 + 761/20) / 2 = 3803/100 ∧
    ((sb1 cosr).lon0 + 599/25) / 2 = 599/25 ∧
    coord_to_grid (sb2 cosr) (761/20) (599/25) = (-6, 5) ∧
    add_event cosr 3 (sb1 cosr) (761/20) (599/25) 0 =
      some (writeEvent (sb4 cosr) 0 2 5 0) ∧
    (sb4 cosr).lat0 = 7609/200 ∧
    (sb4 cosr).lon0 = 599/25 ∧
    coord_to_grid (sb4 cosr) (761/20) (599/25) = (2, 5) ∧
    (writeEvent (sb4 cosr) 0 2 5 0).tensor 0 1 2 5 = 1 := by
  refine ⟨scen_event1 cosr 0, ?_, ?_, ?_, coord_sb2 cosr, scen_event2 cosr,
    by simp [sb4], by simp [sb4], coord_sb4 cosr, ?_⟩
  · simp [sb1, writeEvent, upd]
  · rw [show (sb1 cosr).lat0 = 3801/100 by simp [sb1, sb0, initBuffer]]
    norm_num
  · rw [show (sb1 cosr).lon0 = 599/25 by simp [sb1, sb0, initBuffer]]
    norm_num
  · simp [writeEvent, upd]

/-- C2, counterexample.  The out-of-grid insertion of the reference scenario
is not resolved by a single re-centering: with fuel for one re-centering the
recursion does not complete (the source would recurse again, not drop the
event), and the completed run reaches the origin `38.045` — the result of
three successive midpoint re-centerings, not of the single one the claim
allows (which would leave the origin at `38.03`) — and writes the event
instead of dropping it. -/
theorem c2_counterexample :
    add_event cosRef 1 (sb1 cosRef) (761/20) (599/25) 0 = none ∧
    (add_event cosRef 3 (sb1 cosRef) (761/20) (599/25) 0).map
      (fun b => (b.lat0, b.tensor 0 1 2 5)) = some (7609/200, 1) ∧
    (7609/200 : ℚ) ≠ 3803/100 := by
  refine ⟨scen_event2_fuel1 cosRef, ?_, by norm_num⟩
  rw [scen_event2]
  simp [sb4, writeEvent, upd]

/-- C2, amended.  An insertion whose projection is out of the window
re-centers and re-attempts recursively with no depth bound: a single
`add_event` call may perform several re-centerings (three in the reference
scenario, for every model of `cos ∘ radians`), and the event is then
written, not dropped. -/
theorem c2_recursion_amended (cosr : ℚ → ℚ) :
    add_event cosr 1 (sb1 cosr) (761/20) (599/25) 0 = none ∧
    (add_event cosr 3 (sb1 cosr) (761/20) (599/25) 0).map
      (fun b => (b.lat0, b.tensor 0 1 2 5)) = some (7609/200, 1) := by
  refine ⟨scen_event2_fuel1 cosr, ?_⟩
  rw [scen_event2]
  simp [sb4, writeEvent, upd]

/-- C3, counterexample.  Constructing a buffer with `row_size = 0`,
`cell_size_km = 0` and `max_capacity = 0` — all three non-positive —
succeeds without any configuration error: `__init__` contains no validation,
and `np.zeros` accepts zero-sized dimensions. -/
theorem c3_counterexample :
    initBufferChecked cosRef (3801/100) (599/25) 0 0 0 1 0 =
      Except.ok (initBuffer cosRef (3801/100) (599/25) 0 0 0 1 0) := by
  rw [initBufferChecked, if_neg (by omega)]
  rfl

/-- C3, amended.  Construction fails only when `row_size` or `max_capacity`
is negative (numpy refuses negative array dimensions); zero values of those,
and any `cell_size_km` whatsoever, are accepted silently at construction
time, and misbehaviour (for instance the `ZeroDivisionError` of a projection
with `cell_size_km = 0`) surfaces only later, during insertion. -/
theorem c3_construction_amended (cosr : ℚ → ℚ) (lat0 lon0 st : ℚ)
    (row cap : ℤ) (cell : ℚ) (step : ℤ) :
    (row < 0 ∨ cap < 0 →
      initBufferChecked cosr lat0 lon0 st row cell step cap =
        Except.error "ValueError: negative dimensions are not allowed") ∧
    (0 ≤ row → 0 ≤ cap →
      initBufferChecked cosr lat0 lon0 st row cell step cap =
        Except.ok (initBuffer cosr lat0 lon0 st row.toNat cell step
          cap.toNat)) := by
  constructor
  · intro h
    rw [initBufferChecked, if_pos h]
  · intro h1 h2
    rw [initBufferChecked, if_neg (by omega)]

/-- Witness for C3's amended theorem: a negative `row_size` is rejected by
`np.zeros`. -/
theorem c3_construction_amended_witness :
    ((-1 : ℤ) < 0 ∨ (240 : ℤ) < 0) ∧
    initBufferChecked cosRef 0 0 0 (-1) (1/5) 1 240 =
      Except.error "ValueError: negative dimensions are not allowed" :=
  ⟨by decide,
    (c3_construction_amended cosRef 0 0 0 (-1) 240 (1/5) 1).1 (by decide)⟩

/-- C4, counterexample.  `add_event` with a NaN latitude and an in-range
timestamp raises: the projection's `int(round(...))` cannot convert NaN to
an integer, so the call ends in a `ValueError` rather than a silent drop or
a cell write. -/
theorem c4_counterexample :
    add_eventF cosRef 0 (sb0 cosRef) PFloat.nan (PFloat.fin (599/25)) 0 =
      Except.error "ValueError: cannot convert float NaN to integer" := by
  have h : get_frame_index (sb0 cosRef) 0 = 0 :=
    gfi_scenario _ (by simp [sb0, initBuffer]) (by simp [sb0, initBuffer])
  have hc : 0 ≤ get_frame_index (sb0 cosRef) 0 ∧
      get_frame_index (sb0 cosRef) 0 < ((sb0 cosRef).max_capacity : ℤ) := by
    rw [h, show (sb0 cosRef).max_capacity = 240 by simp [sb0, initBuffer]]
    decide
  rw [add_eventF.eq_def]
  simp only []
  rw [if_neg (not_not_intro hc)]

/-- C4, amended.  Only NaN coordinates make `add_event` raise: for every
finite pair of coordinates (and a positive `cell_size_km`, since the source
raises `ZeroDivisionError` when dividing by a zero cell size — a case the
exact-rational model cannot distinguish), the NaN-aware insertion never
raises and computes exactly the rational insertion. -/
theorem c4_no_raise_amended (cosr : ℚ → ℚ) (fuel : ℕ) (b : EventBuffer)
    (la lo t : ℚ) (hcell : 0 < b.cell_size_km) :
    add_eventF cosr fuel b (PFloat.fin la) (PFloat.fin lo) t =
      Except.ok (add_event cosr fuel b la lo t) := by
  induction fuel generalizing b with
  | zero =>
    by_cases hf : 0 ≤ get_frame_index b t ∧
        get_frame_index b t < (b.max_capacity : ℤ)
    · by_cases hb : 0 ≤ (coord_to_grid b la lo).1 ∧
          (coord_to_grid b la lo).1 < (b.row_size : ℤ) ∧
          0 ≤ (coord_to_grid b la lo).2 ∧
          (coord_to_grid b la lo).2 < (b.row_size : ℤ)
      · rw [add_event_in_bounds cosr 0 b la lo t hf hb, add_eventF.eq_def]
        simp only []
        rw [if_neg (not_not_intro hf), if_pos hb]
      · rw [add_event_ofg_zero cosr b la lo t hf hb, add_eventF.eq_def]
        simp only []
        rw [if_neg (not_not_intro hf), if_neg hb]
    · rw [add_event_out_of_frame cosr 0 b la lo t hf, add_eventF.eq_def]
      simp only []
      rw [if_pos hf]
  | succ n ih =>
    by_cases hf : 0 ≤ get_frame_index b t ∧
        get_frame_index b t < (b.max_capacity : ℤ)
    · by_cases hb : 0 ≤ (coord_to_grid b la lo).1 ∧
          (coord_to_grid b la lo).1 < (b.row_size : ℤ) ∧
          0 ≤ (coord_to_grid b la lo).2 ∧
          (coord_to_grid b la lo).2 < (b.row_size : ℤ)
      · rw [add_event_in_bounds cosr (n + 1) b la lo t hf hb,
          add_eventF.eq_def]
        simp only []
        rw [if_neg (not_not_intro hf), if_pos hb]
      · rw [add_event_ofg_succ cosr n b la lo t hf hb, add_eventF.eq_def]
        simp only []
        rw [if_neg (not_not_intro hf), if_neg hb]
        exact ih _ (by rwa [shift_grid_cell_size_km])
    · rw [add_event_out_of_frame cosr (n + 1) b la lo t hf, add_eventF.eq_def]
      simp only []
      rw [if_pos hf]

/-- Witness for C4's amended theorem at the scenario origin event. -/
theorem c4_no_raise_amended_witness :
    0 < (sb0 cosRef).cell_size_km ∧
    add_eventF cosRef 0 (sb0 cosRef) (PFloat.fin (3801/100))
        (PFloat.fin (599/25)) 0 =
      Except.ok (add_event cosRef 0 (sb0 cosRef) (3801/100) (599/25) 0) :=
  ⟨by norm_num [sb0, initBuffer],
    c4_no_raise_amended cosRef 0 (sb0 cosRef) (3801/100) (599/25) 0
      (by norm_num [sb0, initBuffer])⟩

/-- C5.  An event whose frame index falls outside `[0, max_capacity)` is a
silent no-op: `add_event` returns with the buffer exactly as it was (no
tensor write, no re-centering, no attribute change); in particular the event
at `start_time + max_capacity · step_minutes` (in seconds,
`start_time + max_capacity · (step_minutes · 60)`) is dropped. -/
theorem c5_out_of_frame_noop (cosr : ℚ → ℚ) (fuel : ℕ) (b : EventBuffer)
    (lat lon t : ℚ) :
    (¬ (0 ≤ get_frame_index b t ∧
        get_frame_index b t < (b.max_capacity : ℤ)) →
      add_event cosr fuel b lat lon t = some b) ∧
    (0 < b.step_minutes →
      add_event cosr fuel b lat lon
        (b.start_time + (b.max_capacity : ℚ) * ((b.step_minutes : ℚ) * 60)) =
        some b) := by
  constructor
  · exact add_event_out_of_frame cosr fuel b lat lon t
  · intro hstep
    have hpos : (0 : ℚ) < (b.step_minutes : ℚ) * 60 := by
      have : (0 : ℚ) < (b.step_minutes : ℚ) := by exact_mod_cast hstep
      linarith
    have hgfi : get_frame_index b
        (b.start_time + (b.max_capacity : ℚ) * ((b.step_minutes : ℚ) * 60)) =
        (b.max_capacity : ℤ) := by
      unfold get_frame_index
      rw [show b.start_time + (b.max_capacity : ℚ) *
          ((b.step_minutes : ℚ) * 60) - b.start_time =
          (b.max_capacity : ℚ) * ((b.step_minutes : ℚ) * 60) by ring,
        mul_div_assoc, div_self (ne_of_gt hpos), mul_one]
      exact_mod_cast Int.floor_natCast b.max_capacity
    apply add_event_out_of_frame
    rw [hgfi]
    intro hcontra
    exact lt_irrefl _ hcontra.2

/-- Witness for C5 at a timestamp one minute before `start_time`. -/
theorem c5_out_of_frame_noop_witness :
    ¬ (0 ≤ get_frame_index (sb0 cosRef) (-60) ∧
      get_frame_index (sb0 cosRef) (-60) < ((sb0 cosRef).max_capacity : ℤ)) ∧
    add_event cosRef 0 (sb0 cosRef) 0 0 (-60) = some (sb0 cosRef) := by
  have h : get_frame_index (sb0 cosRef) (-60) = -1 := by
    have h1 : (sb0 cosRef).start_time = 0 := by simp [sb0, initBuffer]
    have h2 : (sb0 cosRef).step_minutes = 1 := by simp [sb0, initBuffer]
    unfold get_frame_index
    rw [h1, h2]
    norm_num
  have hcap : (sb0 cosRef).max_capacity = 240 := by simp [sb0, initBuffer]
  have hn : ¬ (0 ≤ get_frame_index (sb0 cosRef) (-60) ∧
      get_frame_index (sb0 cosRef) (-60) <
        ((sb0 cosRef).max_capacity : ℤ)) := by
    rw [h, hcap]
    decide
  exact ⟨hn, (c5_out_of_frame_noop cosRef 0 (sb0 cosRef) 0 0 (-60)).1 hn⟩

/-- C6.  The frame index is the floor (toward negative infinity) of the
elapsed seconds over the frame length in seconds: `frame_index(start_time)`
is 0, `frame_index(start_time + step_minutes)` is 1, and every timestamp
before `start_time` gets a negative index.  The computation is a pure
function of `start_time` and `step_minutes` (in the model it reads the state
and returns an integer; nothing is mutated). -/
theorem c6_frame_index_floor (b : EventBuffer) (h : 0 < b.step_minutes) :
    (∀ t, get_frame_index b t =
      ⌊(t - b.start_time) / ((b.step_minutes : ℚ) * 60)⌋) ∧
    get_frame_index b b.start_time = 0 ∧
    get_frame_index b (b.start_time + (b.step_minutes : ℚ) * 60) = 1 ∧
    (∀ t, t < b.start_time → get_frame_index b t < 0) := by
  have hpos : (0 : ℚ) < (b.step_minutes : ℚ) * 60 := by
    have : (0 : ℚ) < (b.step_minutes : ℚ) := by exact_mod_cast h
    linarith
  refine ⟨fun t => rfl, ?_, ?_, ?_⟩
  · simp [get_frame_index]
  · unfold get_frame_index
    rw [show b.start_time + (b.step_minutes : ℚ) * 60 - b.start_time =
      (b.step_minutes : ℚ) * 60 by ring, div_self (ne_of_gt hpos)]
    exact Int.floor_one
  · intro t ht
    unfold get_frame_index
    have : (t - b.start_time) / ((b.step_minutes : ℚ) * 60) < 0 :=
      div_neg_of_neg_of_pos (by linarith) hpos
    exact Int.floor_lt.mpr (by exact_mod_cast this)

/-- Witness for C6 in the scenario buffer (`step_minutes = 1`). -/
theorem c6_frame_index_floor_witness :
    0 < (sb0 cosRef).step_minutes ∧
    get_frame_index (sb0 cosRef) ((sb0 cosRef).start_time) = 0 :=
  ⟨by norm_num [sb0, initBuffer],
    (c6_frame_index_floor (sb0 cosRef) (by norm_num [sb0, initBuffer])).2.1⟩

/-- C7.  With a positive cell size and a nonnegative `km_per_deg_lon` (which
holds for every real origin latitude, since `km_per_deg_lon` is
`111.320 · cos(origin latitude)` and real latitudes lie in `[-90°, 90°]`),
the projection is weakly monotone: increasing the longitude argument weakly
increases the column index, and increasing the latitude argument weakly
decreases the row index. -/
theorem c7_projection_monotone (b : EventBuffer) (lat lat' lon lon' : ℚ)
    (hcell : 0 < b.cell_size_km) (hkm : 0 ≤ b.km_per_deg_lon)
    (hlon : lon ≤ lon') (hlat : lat ≤ lat') :
    (coord_to_grid b lat lon).2 ≤ (coord_to_grid b lat lon').2 ∧
    (coord_to_grid b lat' lon).1 ≤ (coord_to_grid b lat lon).1 := by
  have hlatkm : (0 : ℚ) ≤ km_per_deg_lat := by norm_num [km_per_deg_lat]
  constructor
  · unfold coord_to_grid
    apply add_le_add_left
    apply pyRound_mono
    have h1 : (lon - b.lon0) * b.km_per_deg_lon ≤
        (lon' - b.lon0) * b.km_per_deg_lon :=
      mul_le_mul_of_nonneg_right (by linarith) hkm
    exact (div_le_div_iff_of_pos_right hcell).mpr h1
  · unfold coord_to_grid
    apply sub_le_sub_left
    apply pyRound_mono
    have h1 : (lat - b.lat0) * km_per_deg_lat ≤
        (lat' - b.lat0) * km_per_deg_lat :=
      mul_le_mul_of_nonneg_right (by linarith) hlatkm
    exact (div_le_div_iff_of_pos_right hcell).mpr h1

/-- Witness for C7 in the scenario buffer. -/
theorem c7_projection_monotone_witness :
    0 < (sb0 cosRef).cell_size_km ∧ 0 ≤ (sb0 cosRef).km_per_deg_lon ∧
    (0 : ℚ) ≤ 1 ∧
    (coord_to_grid (sb0 cosRef) 0 0).2 ≤ (coord_to_grid (sb0 cosRef) 0 1).2 ∧
    (coord_to_grid (sb0 cosRef) 1 0).1 ≤ (coord_to_grid (sb0 cosRef) 0 0).1 := by
  have h1 : 0 < (sb0 cosRef).cell_size_km := by norm_num [sb0, initBuffer]
  have h2 : 0 ≤ (sb0 cosRef).km_per_deg_lon := by
    norm_num [sb0, initBuffer, cosRef]
  have h3 : (0 : ℚ) ≤ 1 := by norm_num
  have h := c7_projection_monotone (sb0 cosRef) 0 1 0 1 h1 h2 h3 h3
  exact ⟨h1, h2, h3, h.1, h.2⟩

/-- C8.  A re-centering preserves every dimension of the backing array (the
`max_capacity`, `row_size` and channel-count fields are untouched, and the
replacement tensor is indexed identically) and leaves `start_time` (and the
temporal configuration generally) unchanged, while updating the origin and
recomputing `km_per_deg_lon` as `111.320 · cos(radians(new latitude))` —
`cosr` being the model of `cos ∘ radians`. -/
theorem c8_shift_grid_invariants (cosr : ℚ → ℚ) (b : EventBuffer)
    (nl no : ℚ) :
    (shift_grid cosr b nl no).max_capacity = b.max_capacity ∧
    (shift_grid cosr b nl no).row_size = b.row_size ∧
    (shift_grid cosr b nl no).cell_size_km = b.cell_size_km ∧
    (shift_grid cosr b nl no).step_minutes = b.step_minutes ∧
    (shift_grid cosr b nl no).start_time = b.start_time ∧
    (shift_grid cosr b nl no).lat0 = nl ∧
    (shift_grid cosr b nl no).lon0 = no ∧
    (shift_grid cosr b nl no).km_per_deg_lon = (2783/25) * cosr nl :=
  ⟨rfl, rfl, rfl, rfl, rfl, rfl, rfl, rfl⟩

/-- C9.  An insertion whose frame index is in `[0, max_capacity)` and whose
projected cell is inside the grid writes exactly two tensor entries — the
UNIX timestamp into channel 0 and the flag 1 into channel 1, both at the
event's frame, row and column — and leaves every other tensor entry and
every buffer attribute unchanged. -/
theorem c9_in_bounds_write_effect (cosr : ℚ → ℚ) (fuel : ℕ)
    (b : EventBuffer) (lat lon t : ℚ)
    (hf : 0 ≤ get_frame_index b t ∧
      get_frame_index b t < (b.max_capacity : ℤ))
    (hb : 0 ≤ (coord_to_grid b lat lon).1 ∧
      (coord_to_grid b lat lon).1 < (b.row_size : ℤ) ∧
      0 ≤ (coord_to_grid b lat lon).2 ∧
      (coord_to_grid b lat lon).2 < (b.row_size : ℤ)) :
    add_event cosr fuel b lat lon t =
      some (writeEvent b (get_frame_index b t).toNat
        (coord_to_grid b lat lon).1.toNat (coord_to_grid b lat lon).2.toNat
        t) ∧
    (writeEvent b (get_frame_index b t).toNat
        (coord_to_grid b lat lon).1.toNat (coord_to_grid b lat lon).2.toNat
        t).tensor (get_frame_index b t).toNat 0
        (coord_to_grid b lat lon).1.toNat (coord_to_grid b lat lon).2.toNat
      = t ∧
    (writeEvent b (get_frame_index b t).toNat
        (coord_to_grid b lat lon).1.toNat (coord_to_grid b lat lon).2.toNat
        t).tensor (get_frame_index b t).toNat 1
        (coord_to_grid b lat lon).1.toNat (coord_to_grid b lat lon).2.toNat
      = 1 ∧
    (∀ f ch r c : ℕ,
      ¬ (f = (get_frame_index b t).toNat ∧
          r = (coord_to_grid b lat lon).1.toNat ∧
          c = (coord_to_grid b lat lon).2.toNat ∧ (ch = 0 ∨ ch = 1)) →
      (writeEvent b (get_frame_index b t).toNat
          (coord_to_grid b lat lon).1.toNat (coord_to_grid b lat lon).2.toNat
          t).tensor f ch r c = b.tensor f ch r c) ∧
    (writeEvent b (get_frame_index b t).toNat
        (coord_to_grid b lat lon).1.toNat (coord_to_grid b lat lon).2.toNat
        t).lat0 = b.lat0 ∧
    (writeEvent b (get_frame_index b t).toNat
        (coord_to_grid b lat lon).1.toNat (coord_to_grid b lat lon).2.toNat
        t).lon0 = b.lon0 ∧
    (writeEvent b (get_frame_index b t).toNat
        (coord_to_grid b lat lon).1.toNat (coord_to_grid b lat lon).2.toNat
        t).start_time = b.start_time ∧
    (writeEvent b (get_frame_index b t).toNat
        (coord_to_grid b lat lon).1.toNat (coord_to_grid b lat lon).2.toNat
        t).row_size = b.row_size ∧
    (writeEvent b (get_frame_index b t).toNat
        (coord_to_grid b lat lon).1.toNat (coord_to_grid b lat lon).2.toNat
        t).cell_size_km = b.cell_size_km ∧
    (writeEvent b (get_frame_index b t).toNat
        (coord_to_grid b lat lon).1.toNat (coord_to_grid b lat lon).2.toNat
        t).step_minutes = b.step_minutes ∧
    (writeEvent b (get_frame_index b t).toNat
        (coord_to_grid b lat lon).1.toNat (coord_to_grid b lat lon).2.toNat
        t).max_capacity = b.max_capacity ∧
    (writeEvent b (get_frame_index b t).toNat
        (coord_to_grid b lat lon).1.toNat (coord_to_grid b lat lon).2.toNat
        t).km_per_deg_lon = b.km_per_deg_lon := by
  refine ⟨add_event_in_bounds cosr fuel b lat lon t hf hb, ?_, ?_, ?_,
    rfl, rfl, rfl, rfl, rfl, rfl, rfl, rfl⟩
  · simp [writeEvent, upd]
  · simp [writeEvent, upd]
  · intro f ch r c hne
    simp only [writeEvent, upd]
    rw [if_neg (by tauto), if_neg (by tauto)]

/-- Witness for C9 at the scenario origin event (frame 0, cell `(5, 5)`). -/
theorem c9_in_bounds_write_effect_witness :
    (0 ≤ get_frame_index (sb0 cosRef) 0 ∧
      get_frame_index (sb0 cosRef) 0 < ((sb0 cosRef).max_capacity : ℤ)) ∧
    (0 ≤ (coord_to_grid (sb0 cosRef) (3801/100) (599/25)).1 ∧
      (coord_to_grid (sb0 cosRef) (3801/100) (599/25)).1 <
        ((sb0 cosRef).row_size : ℤ) ∧
      0 ≤ (coord_to_grid (sb0 cosRef) (3801/100) (599/25)).2 ∧
      (coord_to_grid (sb0 cosRef) (3801/100) (599/25)).2 <
        ((sb0 cosRef).row_size : ℤ)) ∧
    add_event cosRef 0 (sb0 cosRef) (3801/100) (599/25) 0 =
      some (writeEvent (sb0 cosRef) (get_frame_index (sb0 cosRef) 0).toNat
        (coord_to_grid (sb0 cosRef) (3801/100) (599/25)).1.toNat
        (coord_to_grid (sb0 cosRef) (3801/100) (599/25)).2.toNat 0) := by
  have hgfi : get_frame_index (sb0 cosRef) 0 = 0 :=
    gfi_scenario _ (by simp [sb0, initBuffer]) (by simp [sb0, initBuffer])
  have hcg := coord_sb0 cosRef
  have hf : 0 ≤ get_frame_index (sb0 cosRef) 0 ∧
      get_frame_index (sb0 cosRef) 0 < ((sb0 cosRef).max_capacity : ℤ) := by
    rw [hgfi, show (sb0 cosRef).max_capacity = 240 by simp [sb0, initBuffer]]
    decide
  have hb : 0 ≤ (coord_to_grid (sb0 cosRef) (3801/100) (599/25)).1 ∧
      (coord_to_grid (sb0 cosRef) (3801/100) (599/25)).1 <
        ((sb0 cosRef).row_size : ℤ) ∧
      0 ≤ (coord_to_grid (sb0 cosRef) (3801/100) (599/25)).2 ∧
      (coord_to_grid (sb0 cosRef) (3801/100) (599/25)).2 <
        ((sb0 cosRef).row_size : ℤ) := by
    rw [hcg, show (sb0 cosRef).row_size = 10 by simp [sb0, initBuffer]]
    decide
  exact ⟨hf, hb,
    (c9_in_bounds_write_effect cosRef 0 (sb0 cosRef) (3801/100) (599/25) 0
      hf hb).1⟩

/-- The all-zero tensor satisfies the fire-flag invariant. -/
theorem flag_zero : FireFlagOkG (fun _ _ _ _ => (0 : ℚ)) :=
  fun _ _ _ => Or.inl rfl

/-- Pointwise unfolding of the single-cell update. -/
theorem upd_apply (T : Grid4) (f ch r c : ℕ) (v : ℚ) (g d x y : ℕ) :
    upd T f ch r c v g d x y =
      if g = f ∧ d = ch ∧ x = r ∧ y = c then v else T g d x y := rfl

/-- The in-bounds write preserves the fire-flag invariant: channel 0 is not
channel 1, and the flag written into channel 1 is 1. -/
theorem flag_writeEvent (b : EventBuffer) (F R C : ℕ) (t : ℚ)
    (h : FireFlagOk b) : FireFlagOk (writeEvent b F R C t) := by
  intro f r c
  show (upd (upd b.tensor F 1 R C 1) F 0 R C t f 1 r c = 0 ∨
    upd (upd b.tensor F 1 R C 1) F 0 R C t f 1 r c = 1)
  rw [upd_apply, if_neg (fun hx => one_ne_zero hx.2.1), upd_apply]
  by_cases hx : f = F ∧ (1 : ℕ) = 1 ∧ r = R ∧ c = C
  · rw [if_pos hx]
    exact Or.inr rfl
  · rw [if_neg hx]
    exact h f r c

/-- A fold whose step preserves the fire-flag invariant preserves it. -/
theorem foldl_flagOk (step : Grid4 → ℕ × ℕ → Grid4)
    (hstep : ∀ T rc, FireFlagOkG T → FireFlagOkG (step T rc)) :
    ∀ (l : List (ℕ × ℕ)) (T : Grid4), FireFlagOkG T →
      FireFlagOkG (l.foldl step T) := by
  intro l
  induction l with
  | nil => intro T h; exact h
  | cons a rest ih => intro T h; exact ih _ (hstep T a h)

/-- Re-centering preserves the fire-flag invariant: the remapped tensor
starts from zeros and only copies channel-1 values of the old tensor into
channel 1. -/
theorem flag_shift_grid (cosr : ℚ → ℚ) (b : EventBuffer) (nl no : ℚ)
    (h : FireFlagOk b) : FireFlagOk (shift_grid cosr b nl no) := by
  show FireFlagOkG ((cellList b.row_size).foldl
    (fun T rc =>
      let nrc := remapCell cosr b nl no rc
      if 0 ≤ nrc.1 ∧ nrc.1 < (b.row_size : ℤ) ∧ 0 ≤ nrc.2 ∧
          nrc.2 < (b.row_size : ℤ) then
        fun f ch r' c' => if r' = nrc.1.toNat ∧ c' = nrc.2.toNat then
          b.tensor f ch rc.1 rc.2 else T f ch r' c'
      else T)
    (fun _ _ _ _ => 0))
  refine foldl_flagOk _ ?_ _ _ flag_zero
  intro T rc hT f r c
  dsimp only
  by_cases hv : 0 ≤ (remapCell cosr b nl no rc).1 ∧
      (remapCell cosr b nl no rc).1 < (b.row_size : ℤ) ∧
      0 ≤ (remapCell cosr b nl no rc).2 ∧
      (remapCell cosr b nl no rc).2 < (b.row_size : ℤ)
  · rw [if_pos hv]
    by_cases hrc : r = (remapCell cosr b nl no rc).1.toNat ∧
        c = (remapCell cosr b nl no rc).2.toNat
    · simp only [if_pos hrc]
      exact h f rc.1 rc.2
    · simp only [if_neg hrc]
      exact hT f r c
  · rw [if_neg hv]
    exact hT f r c

/-- Every terminating `add_event` call preserves the fire-flag invariant. -/
theorem add_event_flag (cosr : ℚ → ℚ) :
    ∀ (fuel : ℕ) (b b' : EventBuffer) (lat lon t : ℚ), FireFlagOk b →
      add_event cosr fuel b lat lon t = some b' → FireFlagOk b' := by
  intro fuel
  induction fuel with
  | zero =>
    intro b b' lat lon t hb h
    by_cases hf : 0 ≤ get_frame_index b t ∧
        get_frame_index b t < (b.max_capacity : ℤ)
    · by_cases hbd : 0 ≤ (coord_to_grid b lat lon).1 ∧
          (coord_to_grid b lat lon).1 < (b.row_size : ℤ) ∧
          0 ≤ (coord_to_grid b lat lon).2 ∧
          (coord_to_grid b lat lon).2 < (b.row_size : ℤ)
      · rw [add_event_in_bounds cosr 0 b lat lon t hf hbd] at h
        have he := Option.some.inj h
        subst he
        exact flag_writeEvent _ _ _ _ _ hb
      · rw [add_event_ofg_zero cosr b lat lon t hf hbd] at h
        exact absurd h (by simp)
    · rw [add_event_out_of_frame cosr 0 b lat lon t hf] at h
      have he := Option.some.inj h
      subst he
      exact hb
  | succ n ih =>
    intro b b' lat lon t hb h
    by_cases hf : 0 ≤ get_frame_index b t ∧
        get_frame_index b t < (b.max_capacity : ℤ)
    · by_cases hbd : 0 ≤ (coord_to_grid b lat lon).1 ∧
          (coord_to_grid b lat lon).1 < (b.row_size : ℤ) ∧
          0 ≤ (coord_to_grid b lat lon).2 ∧
          (coord_to_grid b lat lon).2 < (b.row_size : ℤ)
      · rw [add_event_in_bounds cosr (n + 1) b lat lon t hf hbd] at h
        have he := Option.some.inj h
        subst he
        exact flag_writeEvent _ _ _ _ _ hb
      · rw [add_event_ofg_succ cosr n b lat lon t hf hbd] at h
        exact ih _ _ _ _ _ (flag_shift_grid cosr b _ _ hb) h
    · rw [add_event_out_of_frame cosr (n + 1) b lat lon t hf] at h
      have he := Option.some.inj h
      subst he
      exact hb

/-- Every terminating sequence of `add_event` calls preserves the fire-flag
invariant. -/
theorem applyEvents_flag (cosr : ℚ → ℚ) (fuel : ℕ) :
    ∀ (events : List (ℚ × ℚ × ℚ)) (b b' : EventBuffer), FireFlagOk b →
      applyEvents cosr fuel b events = some b' → FireFlagOk b' := by
  intro events
  induction events with
  | nil =>
    intro b b' hb h
    rw [applyEvents] at h
    have he := Option.some.inj h
    subst he
    exact hb
  | cons e rest ih =>
    intro b b' hb h
    obtain ⟨la, lo, t⟩ := e
    rw [applyEvents] at h
    cases hadd : add_event cosr fuel b la lo t with
    | none => rw [hadd] at h; exact absurd h (by simp)
    | some bm =>
      rw [hadd] at h
      exact ih _ _ (add_event_flag cosr fuel b bm la lo t hb hadd) h

/-- C10.  After any terminating sequence of `add_event` calls on a freshly
constructed buffer, every entry of the fire-flag channel (channel 1) is
either 0 or 1; the in-bounds write and the re-centering remap each preserve
this property. -/
theorem c10_fire_flag_invariant (cosr : ℚ → ℚ) (fuel : ℕ)
    (lat0 lon0 st : ℚ) (n : ℕ) (cell : ℚ) (step : ℤ) (cap : ℕ)
    (events : List (ℚ × ℚ × ℚ)) (b' : EventBuffer)
    (h : applyEvents cosr fuel (initBuffer cosr lat0 lon0 st n cell step cap)
      events = some b') : FireFlagOk b' :=
  applyEvents_flag cosr fuel events _ b' (fun _ _ _ => Or.inl rfl) h

/-- Witness for C10: the scenario buffer after inserting the origin event. -/
theorem c10_fire_flag_invariant_witness :
    applyEvents cosRef 0 (sb0 cosRef) [(3801/100, 599/25, 0)] =
      some (sb1 cosRef) ∧ FireFlagOk (sb1 cosRef) := by
  have h : applyEvents cosRef 0 (sb0 cosRef) [(3801/100, 599/25, 0)] =
      some (sb1 cosRef) := by
    rw [applyEvents.eq_def]
    simp only []
    rw [scen_event1 cosRef 0]
    rfl
  exact ⟨h, c10_fire_flag_invariant cosRef 0 (3801/100) (599/25) 0 10 (1/5)
    1 240 [(3801/100, 599/25, 0)] (sb1 cosRef) h⟩
